import Mathlib

/-!
Verification development for the montblanc RIME GPU pipeline-node code.

The development shallowly embeds the pieces of the repository that the
properties below are about:

* `montblanc/impl/biro/v4/gpu/RimeBSqrt.py` — the B-sqrt pipeline node:
  its kernel-parameter presets (`FLOAT_PARAMS` / `DOUBLE_PARAMS`), the
  per-axis block narrowing and launch-geometry computation performed by
  `initialise` / `get_launch_params`, the textual kernel template
  `KERNEL_TEMPLATE` and its substitution, and the (empty) `shutdown`.
* `montblanc/impl/rime/v5/gpu/SersicChiSquaredGradient.py` — the
  null-sentinel substitution for an empty sersic shape tensor in
  `execute`.

Machine integers are modelled as `Nat` (all quantities involved are
non-negative Python ints and no overflow is possible).  The rendered
kernel source text is modelled as its list of lines, each line a
`List Char`.
-/

namespace Montblanc

/-- Decimal digit character for a digit value (models Python's decimal
rendering of a digit). -/
def digitChar (d : Nat) : Char := Char.ofNat (48 + d)

/-- Numeric value of a decimal digit character. -/
def charDigit (c : Char) : Nat := c.toNat - 48

/-- Fuel-indexed most-significant-digit-first decimal rendering of a
positive natural number; `natToCharsAux n n` renders `n ≥ 1`. -/
def natToCharsAux : Nat → Nat → List Char
  | 0, _ => []
  | _ + 1, 0 => []
  | fuel + 1, n + 1 =>
      natToCharsAux fuel ((n + 1) / 10) ++ [digitChar ((n + 1) % 10)]

/-- Decimal rendering of a natural number, as Python's `str` produces it
inside `string.Template.substitute`. -/
def natToChars (n : Nat) : List Char :=
  if n = 0 then ['0'] else natToCharsAux n n

/-- Decimal value of a digit string (most significant digit first). -/
def natOfChars : List Char → Nat
  | [] => 0
  | c :: cs => charDigit c * 10 ^ cs.length + natOfChars cs

/-- Dimension Set: the problem dimensions a solver carries
(`slvr.na`, `slvr.nbl`, `slvr.nchan`, `slvr.ntime`, `slvr.nsrc`). -/
structure DimSet where
  na : Nat
  nbl : Nat
  nchan : Nat
  ntime : Nat
  nsrc : Nat
deriving DecidableEq, Repr

/-- Precision Mode of a solver. -/
inductive Precision where
  | single
  | double
deriving DecidableEq, Repr

/-- Modelled from the spec: the solver's `is_float()` query is not under
`src/`; the spec describes it as the precision-mode query (true exactly
for single precision). -/
def is_float : Precision → Bool
  | Precision.single => true
  | Precision.double => false

/-- Kernel parameter preset: block dimensions and register budget
(the module-level dictionaries in `RimeBSqrt.py`). -/
structure KernelParams where
  BLOCKDIMX : Nat
  BLOCKDIMY : Nat
  BLOCKDIMZ : Nat
  maxregs : Nat
deriving DecidableEq, Repr

/-- `FLOAT_PARAMS` from `RimeBSqrt.py` lines 29-34. -/
def FLOAT_PARAMS : KernelParams :=
  { BLOCKDIMX := 32, BLOCKDIMY := 32, BLOCKDIMZ := 1, maxregs := 32 }

/-- `DOUBLE_PARAMS` from `RimeBSqrt.py` lines 38-43. -/
def DOUBLE_PARAMS : KernelParams :=
  { BLOCKDIMX := 32, BLOCKDIMY := 16, BLOCKDIMZ := 1, maxregs := 48 }

/-- The property dictionary `D` built in `RimeBSqrt.initialise`: the
solver's dimension properties (modelled from the spec: `get_properties`
is not under `src/`; the spec says the solver exposes its dimension
sizes) merged with the kernel-parameter preset of the precision mode. -/
structure PropDict where
  na : Nat
  nbl : Nat
  nchan : Nat
  ntime : Nat
  nsrc : Nat
  BLOCKDIMX : Nat
  BLOCKDIMY : Nat
  BLOCKDIMZ : Nat
  maxregs : Nat
deriving DecidableEq, Repr

/-- Launch Geometry: the `block` and `grid` tuples returned by
`get_launch_params`. -/
structure LaunchParams where
  block : Nat × Nat × Nat
  grid : Nat × Nat × Nat
deriving DecidableEq, Repr

/-- Modelled from the spec: `Node.blocks_required` (in `montblanc/node.py`)
is not under `src/`; the spec says grid dimensions are computed as
`ceiling(extent / tile)` per axis, which for a positive tile is the
integer formula `(extent + tile - 1) / tile`. -/
def blocks_required (extent tile : Nat) : Nat := (extent + tile - 1) / tile

/-- First template section: the lines of `KERNEL_TEMPLATE` before the
dimension `#define`s (`RimeBSqrt.py` lines 45-49). -/
def templateHead : List String :=
  [ "",
    "#include \"math_constants.h\"",
    "#include <montblanc/include/abstraction.cuh>",
    "#include <montblanc/include/brightness.cuh>",
    "" ]

/-- Middle template section: the fixed `#define`s between the dimension
and block-dimension `#define`s (`RimeBSqrt.py` lines 55-57). -/
def templateMid : List String :=
  [ "#define NPOL (4)",
    "#define NPOLCHAN (NPOL*NCHAN)",
    "" ]

/-- Final template section: the kernel body of `KERNEL_TEMPLATE`
(`RimeBSqrt.py` lines 61-132); it contains no substitution points. -/
def templateBody : List String :=
  [ "",
    "template <",
    "    typename T,",
    "    typename Tr=montblanc::kernel_traits<T>,",
    "    typename Po=montblanc::kernel_policies<T> >",
    "__device__",
    "void rime_jones_B_sqrt_impl(",
    "    T * stokes,",
    "    T * alpha,",
    "    T * frequency,",
    "    typename Tr::ct * B_sqrt,",
    "    T ref_freq)",
    "\x7b",
    "    int POLCHAN = blockIdx.x*blockDim.x + threadIdx.x;",
    "    int TIME = blockIdx.y*blockDim.y + threadIdx.y;",
    "    int SRC = blockIdx.z*blockDim.z + threadIdx.z;",
    "    #define POL (threadIdx.x & 0x3)",
    "",
    "    if(SRC >= NSRC || TIME >= NTIME || POLCHAN >= NPOLCHAN)",
    "        return;",
    "",
    "    __shared__ T freq[BLOCKDIMX];",
    "",
    "    // TODO. Using 3 times more shared memory than we",
    "    // really require here, since there is only",
    "    // one frequency per channel.",
    "    if(threadIdx.y == 0 && threadIdx.z == 0)",
    "    \x7b",
    "        freq[threadIdx.x] = frequency[POLCHAN >> 2];",
    "    \x7d",
    "",
    "    __syncthreads();",
    "",
    "    // Calculate the power term",
    "    int i = SRC*NTIME + TIME;",
    "    typename Tr::ft freq_ratio = freq[threadIdx.x]/ref_freq;",
    "    typename Tr::ft power = Po::pow(freq_ratio, alpha[i]);",
    "",
    "    // Read in the stokes parameter,",
    "    // multiplying it by the power term",
    "    i = i*NPOL + POL;",
    "    typename Tr::ft pol = stokes[i]*power;",
    "    typename Tr::ct B_square_root;",
    "",
    "    // Create the square root of the brightness matrix",
    "    montblanc::create_brightness_sqrt<T>(B_square_root, pol);",
    "",
    "    // Write out the square root of the brightness",
    "    i = (SRC*NTIME + TIME)*NPOLCHAN + POLCHAN;",
    "    B_sqrt[i] = B_square_root;",
    "\x7d",
    "",
    "extern \"C\" \x7b",
    "",
    "#define stamp_jones_B_sqrt_fn(ft,ct) \\",
    "__global__ void \\",
    "rime_jones_B_sqrt_ ## ft( \\",
    "    ft * stokes, \\",
    "    ft * alpha, \\",
    "    ft * frequency, \\",
    "    ct * B_sqrt, \\",
    "    ft ref_freq) \\",
    "\x7b \\",
    "    rime_jones_B_sqrt_impl<ft>(stokes, alpha, \\",
    "        frequency, B_sqrt, ref_freq); \\",
    "\x7d",
    "",
    "stamp_jones_B_sqrt_fn(float,float2);",
    "stamp_jones_B_sqrt_fn(double,double2);",
    "",
    "\x7d // extern \"C\" \x7b",
    "" ]

/-- Rendered form of a substituted `#define` template line, for example
`#define NA (14)`: this is the result of substituting a decimal value
into a line such as `#define NA (` dollar-brace `na` close-brace `)`. -/
def defLine (nm : List Char) (v : Nat) : List Char :=
  ("#define ".toList) ++ nm ++ [' ', '('] ++ natToChars v ++ [')']

/-- Result of `KERNEL_TEMPLATE.substitute(**D)` (`RimeBSqrt.py` line 162):
the template text with every dollar-brace placeholder replaced by the
decimal rendering of the corresponding entry of `D`, as a list of
lines. -/
def KERNEL_TEMPLATE_substitute (D : PropDict) : List (List Char) :=
  (templateHead.map String.toList)
  ++ [ defLine ("NA".toList) D.na,
       defLine ("NBL".toList) D.nbl,
       defLine ("NCHAN".toList) D.nchan,
       defLine ("NTIME".toList) D.ntime,
       defLine ("NSRC".toList) D.nsrc ]
  ++ (templateMid.map String.toList)
  ++ [ defLine ("BLOCKDIMX".toList) D.BLOCKDIMX,
       defLine ("BLOCKDIMY".toList) D.BLOCKDIMY,
       defLine ("BLOCKDIMZ".toList) D.BLOCKDIMZ ]
  ++ (templateBody.map String.toList)

/-- Everything `RimeBSqrt.initialise` computes and stores on the node:
`self.polchans`, the updated dictionary `D`, the register budget string,
the kernel name, the substituted kernel source and the launch params. -/
structure InitResult where
  polchans : Nat
  D : PropDict
  regs : List Char
  kname : String
  kernel_string : List (List Char)
  launch_params : LaunchParams
deriving DecidableEq, Repr

namespace RimeBSqrt

/-- `RimeBSqrt.get_launch_params(self, slvr, D)` (`RimeBSqrt.py` lines
177-189); `polchans` is `self.polchans`. -/
def get_launch_params (polchans : Nat) (slvr : DimSet) (D : PropDict) :
    LaunchParams :=
  let polchans_per_block := D.BLOCKDIMX
  let times_per_block := D.BLOCKDIMY
  let srcs_per_block := D.BLOCKDIMZ
  let polchan_blocks := blocks_required polchans polchans_per_block
  let time_blocks := blocks_required slvr.ntime times_per_block
  let src_blocks := blocks_required slvr.nsrc srcs_per_block
  { block := (polchans_per_block, times_per_block, srcs_per_block),
    grid := (polchan_blocks, time_blocks, src_blocks) }

/-- `RimeBSqrt.initialise(self, solver)` (`RimeBSqrt.py` lines 138-169),
parameterised by the two module-level presets it reads.  The three
narrowing conditionals of lines 151-153 each read and update a distinct
key of `D`, so they are modelled as independent field updates. -/
def initialiseWith (float_params double_params : KernelParams)
    (slvr : DimSet) (prec : Precision) : InitResult :=
  let polchans := 4 * slvr.nchan
  let P := if is_float prec then float_params else double_params
  let BLOCKDIMX := if polchans < P.BLOCKDIMX then polchans else P.BLOCKDIMX
  let BLOCKDIMY := if slvr.ntime < P.BLOCKDIMY then slvr.ntime else P.BLOCKDIMY
  let BLOCKDIMZ := if slvr.nsrc < P.BLOCKDIMZ then slvr.nsrc else P.BLOCKDIMZ
  let D : PropDict :=
    { na := slvr.na, nbl := slvr.nbl, nchan := slvr.nchan,
      ntime := slvr.ntime, nsrc := slvr.nsrc,
      BLOCKDIMX := BLOCKDIMX, BLOCKDIMY := BLOCKDIMY,
      BLOCKDIMZ := BLOCKDIMZ, maxregs := P.maxregs }
  let regs := natToChars
    (if is_float prec then float_params.maxregs else double_params.maxregs)
  let kname := if is_float prec then "rime_jones_B_sqrt_float"
    else "rime_jones_B_sqrt_double"
  { polchans := polchans, D := D, regs := regs, kname := kname,
    kernel_string := KERNEL_TEMPLATE_substitute D,
    launch_params := get_launch_params polchans slvr D }

/-- `RimeBSqrt.initialise` reading the module-level presets. -/
def initialise (slvr : DimSet) (prec : Precision) : InitResult :=
  initialiseWith FLOAT_PARAMS DOUBLE_PARAMS slvr prec

end RimeBSqrt

/-- The module-level mutable state of `RimeBSqrt.py`: the two preset
dictionaries. -/
structure ModuleState where
  float_params : KernelParams
  double_params : KernelParams
deriving DecidableEq, Repr

/-- The presets as the module defines them. -/
def initialModuleState : ModuleState :=
  { float_params := FLOAT_PARAMS, double_params := DOUBLE_PARAMS }

/-- The per-node state `initialise` writes (`self.polchans`, `self.mod`,
`self.kernel`, `self.launch_params`); the compiled module is represented
by the source it was compiled from and the kernel handle by the entry
point name `get_function` was asked for. -/
structure NodeState where
  polchans : Option Nat
  mod : Option (List (List Char))
  kernel : Option String
  launch_params : Option LaunchParams
deriving DecidableEq, Repr

/-- A node before `initialise` has run. -/
def NodeState.fresh : NodeState :=
  { polchans := none, mod := none, kernel := none, launch_params := none }

namespace RimeBSqrt

/-- `RimeBSqrt.initialise` with its state threading made explicit: it
reads the module-level presets out of `ms` (lines 146 and 155-156 read
`FLOAT_PARAMS`/`DOUBLE_PARAMS`; no statement of the method assigns to
them, so the module state is returned as it was) and assigns the node's
fields (lines 141, 163, 168, 169). -/
def initialiseSt (ms : ModuleState) (slvr : DimSet) (prec : Precision)
    (_ns : NodeState) : InitResult × ModuleState × NodeState :=
  let r := initialiseWith ms.float_params ms.double_params slvr prec
  (r, ms,
    { polchans := some r.polchans, mod := some r.kernel_string,
      kernel := some r.kname, launch_params := some r.launch_params })

/-- `RimeBSqrt.shutdown(self, solver, stream=None)` (`RimeBSqrt.py` lines
171-172): its body is `pass`, so the node state is returned unchanged. -/
def shutdown (ns : NodeState) : NodeState := ns

/-- A sequence of `initialise` calls on one node, each seeing the module
and node state the previous call left behind. -/
def runInitialiseCalls : List (DimSet × Precision) → ModuleState → NodeState →
    ModuleState × NodeState
  | [], ms, ns => (ms, ns)
  | (d, p) :: rest, ms, ns =>
      let r := initialiseSt ms d p ns
      runInitialiseCalls rest r.2.1 r.2.2

end RimeBSqrt

/-- A node on which `initialise` has completed, used as a concrete
initialised state. -/
def exampleInitialisedNode : NodeState :=
  (RimeBSqrt.initialiseSt initialModuleState
    { na := 14, nbl := 91, nchan := 64, ntime := 29, nsrc := 20 }
    Precision.single NodeState.fresh).2.2

/-- Thread and block coordinates of a CUDA launch axis triple. -/
structure Dim3 where
  x : Nat
  y : Nat
  z : Nat
deriving DecidableEq, Repr

/-- The `#define`d problem constants the B-sqrt kernel body reads. -/
structure KernelConsts where
  NSRC : Nat
  NTIME : Nat
  NPOLCHAN : Nat
deriving DecidableEq, Repr

/-- One thread of `rime_jones_B_sqrt_impl` from `KERNEL_TEMPLATE`
(`RimeBSqrt.py` lines 67-111), acting on the output buffer `B_sqrt`.
The guard and the output indexing are modelled exactly; the
shared-memory frequency staging and the floating-point brightness
square-root value (computed via `montblanc/include/brightness.cuh`,
which is not under `src/`) are abstracted into the `brightness_sqrt`
argument, a function of the thread's `SRC`, `TIME` and `POLCHAN`. -/
def rime_jones_B_sqrt_impl {α : Type} (K : KernelConsts)
    (brightness_sqrt : Nat → Nat → Nat → α)
    (blockIdx blockDim threadIdx : Dim3) (B_sqrt : List α) : List α :=
  let POLCHAN := blockIdx.x * blockDim.x + threadIdx.x
  let TIME := blockIdx.y * blockDim.y + threadIdx.y
  let SRC := blockIdx.z * blockDim.z + threadIdx.z
  if SRC ≥ K.NSRC ∨ TIME ≥ K.NTIME ∨ POLCHAN ≥ K.NPOLCHAN then B_sqrt
  else
    B_sqrt.set ((SRC * K.NTIME + TIME) * K.NPOLCHAN + POLCHAN)
      (brightness_sqrt SRC TIME POLCHAN)

/-- A device tensor: its shape tuple and its elements. -/
structure Tensor (α : Type) where
  shape : List Nat
  data : List α
deriving DecidableEq, Repr

/-- Number of elements of a tensor, `np.product(t.shape)`: the product of
the shape tuple (1 for a zero-dimensional tensor). -/
def Tensor.numElements {α : Type} (t : Tensor α) : Nat := t.shape.prod

/-- An argument passed to a compiled kernel: either an integer-pointer
scalar (`np.intp`) or a tensor. -/
inductive KernelArg (α : Type) where
  | intp : Nat → KernelArg α
  | tensor : Tensor α → KernelArg α
deriving DecidableEq, Repr

/-- The solver fields `SersicChiSquaredGradient.execute` reads. -/
structure GradSolver (α : Type) where
  uvw : Tensor α
  sersic_shape : Tensor α
  frequency : Tensor α
  antenna1 : Tensor α
  antenna2 : Tensor α
  jones : Tensor α
  flag : Tensor α
  weight_vector : Tensor α
  observed_vis : Tensor α
  G_term : Tensor α
  model_vis : Tensor α
  X2_grad : Tensor α
deriving DecidableEq, Repr

namespace SersicChiSquaredGradient

/-- `SersicChiSquaredGradient.execute(self, solver, stream=None)`
(`SersicChiSquaredGradient.py` lines 51-62), modelled as the positional
argument list handed to the kernel: `np.intp(0)` is substituted for the
sersic shape tensor exactly when `np.product(slvr.sersic_shape.shape)`
is zero, otherwise the tensor itself is passed. -/
def execute {α : Type} (slvr : GradSolver α) : List (KernelArg α) :=
  let sersic := if Tensor.numElements slvr.sersic_shape = 0 then KernelArg.intp 0
    else KernelArg.tensor slvr.sersic_shape
  [ KernelArg.tensor slvr.uvw, sersic,
    KernelArg.tensor slvr.frequency, KernelArg.tensor slvr.antenna1,
    KernelArg.tensor slvr.antenna2, KernelArg.tensor slvr.jones,
    KernelArg.tensor slvr.flag, KernelArg.tensor slvr.weight_vector,
    KernelArg.tensor slvr.observed_vis, KernelArg.tensor slvr.G_term,
    KernelArg.tensor slvr.model_vis, KernelArg.tensor slvr.X2_grad ]

end SersicChiSquaredGradient

/-- Consume a literal piece of text at the head of a line, returning the
remainder when it is there. -/
def stripLit : List Char → List Char → Option (List Char)
  | [], cs => some cs
  | _ :: _, [] => none
  | p :: ps, c :: cs => if c = p then stripLit ps cs else none

/-- Read a `#define NAME (value)` line back: when the line declares the
requested constant with a non-empty all-digit parenthesised value, the
decimal value, otherwise nothing. -/
def parseDefineLine (name line : List Char) : Option Nat :=
  (stripLit ("#define ".toList) line).bind fun rest =>
    if rest.takeWhile (fun c => c != ' ') = name then
      (stripLit [' ', '('] (rest.dropWhile (fun c => c != ' '))).bind fun inner =>
        if inner.getLast? = some ')' then
          if inner.dropLast = [] then none
          else if inner.dropLast.all Char.isDigit then
            some (natOfChars inner.dropLast)
          else none
        else none
    else none

/-- Value of the first `#define` of the requested constant in a rendered
source text. -/
def findDefine (name : List Char) : List (List Char) → Option Nat
  | [] => none
  | l :: ls =>
      match parseDefineLine name l with
      | some v => some v
      | none => findDefine name ls

/-- Ceiling division by a positive tile covers the extent. -/
theorem blocks_required_covers (extent tile : Nat) (h : 0 < tile) :
    extent ≤ blocks_required extent tile * tile := by
  have h2 : extent ≤ tile • (extent ⌈/⌉ tile) := le_smul_ceilDiv h
  rw [smul_eq_mul, Nat.ceilDiv_eq_add_pred_div, Nat.mul_comm] at h2
  exact h2

/-- The block tuple `initialise` produces, written out as per-axis
narrowing of the precision's preset. -/
theorem initialise_block_eq (d : DimSet) (p : Precision) :
    (RimeBSqrt.initialise d p).launch_params.block =
      ( if 4 * d.nchan <
            (if is_float p then FLOAT_PARAMS else DOUBLE_PARAMS).BLOCKDIMX
          then 4 * d.nchan
          else (if is_float p then FLOAT_PARAMS else DOUBLE_PARAMS).BLOCKDIMX,
        if d.ntime <
            (if is_float p then FLOAT_PARAMS else DOUBLE_PARAMS).BLOCKDIMY
          then d.ntime
          else (if is_float p then FLOAT_PARAMS else DOUBLE_PARAMS).BLOCKDIMY,
        if d.nsrc <
            (if is_float p then FLOAT_PARAMS else DOUBLE_PARAMS).BLOCKDIMZ
          then d.nsrc
          else (if is_float p then FLOAT_PARAMS else DOUBLE_PARAMS).BLOCKDIMZ ) := by
  cases p <;> rfl

/-- Single-precision instance of the block characterisation, with the
preset values written out. -/
theorem initialise_block_eq_single (d : DimSet) :
    (RimeBSqrt.initialise d Precision.single).launch_params.block =
      ( if 4 * d.nchan < 32 then 4 * d.nchan else 32,
        if d.ntime < 32 then d.ntime else 32,
        if d.nsrc < 1 then d.nsrc else 1 ) := rfl

/-- Double-precision instance of the block characterisation, with the
preset values written out. -/
theorem initialise_block_eq_double (d : DimSet) :
    (RimeBSqrt.initialise d Precision.double).launch_params.block =
      ( if 4 * d.nchan < 32 then 4 * d.nchan else 32,
        if d.ntime < 16 then d.ntime else 16,
        if d.nsrc < 1 then d.nsrc else 1 ) := rfl

/-- The grid tuple `initialise` produces is the ceiling division of each
problem extent by the narrowed block dimension of its axis. -/
theorem initialise_grid_eq (d : DimSet) (p : Precision) :
    (RimeBSqrt.initialise d p).launch_params.grid =
      ( blocks_required (4 * d.nchan)
          (RimeBSqrt.initialise d p).launch_params.block.1,
        blocks_required d.ntime
          (RimeBSqrt.initialise d p).launch_params.block.2.1,
        blocks_required d.nsrc
          (RimeBSqrt.initialise d p).launch_params.block.2.2 ) := by
  cases p <;> rfl

/-- C1: for every Dimension Set with all extents positive and either
Precision Mode, the Launch Geometry produced by
`RimeBSqrt.initialise` / `get_launch_params` satisfies
`grid_dims[i] * block_dims[i] >= problem_extent[i]` on every axis, the
problem extents being `(4*nchan, ntime, nsrc)`. -/
theorem bsqrt_launch_covers_extents (d : DimSet) (p : Precision)
    (h1 : 0 < d.na) (h2 : 0 < d.nbl) (h3 : 0 < d.nchan)
    (h4 : 0 < d.ntime) (h5 : 0 < d.nsrc) :
    4 * d.nchan ≤ (RimeBSqrt.initialise d p).launch_params.grid.1 *
        (RimeBSqrt.initialise d p).launch_params.block.1 ∧
    d.ntime ≤ (RimeBSqrt.initialise d p).launch_params.grid.2.1 *
        (RimeBSqrt.initialise d p).launch_params.block.2.1 ∧
    d.nsrc ≤ (RimeBSqrt.initialise d p).launch_params.grid.2.2 *
        (RimeBSqrt.initialise d p).launch_params.block.2.2 := by
  rcases p with _ | _ <;>
    simp only [initialise_grid_eq, initialise_block_eq_single,
      initialise_block_eq_double] <;>
    refine ⟨blocks_required_covers _ _ ?_, blocks_required_covers _ _ ?_,
      blocks_required_covers _ _ ?_⟩ <;>
    split <;> omega

/-- Witness for C1 at the concrete Dimension Set
`{na=14, nbl=91, nchan=64, ntime=29, nsrc=20}` in single precision. -/
theorem bsqrt_launch_covers_extents_witness :
    4 * 64 ≤ (RimeBSqrt.initialise
        { na := 14, nbl := 91, nchan := 64, ntime := 29, nsrc := 20 }
        Precision.single).launch_params.grid.1 *
      (RimeBSqrt.initialise
        { na := 14, nbl := 91, nchan := 64, ntime := 29, nsrc := 20 }
        Precision.single).launch_params.block.1 ∧
    29 ≤ (RimeBSqrt.initialise
        { na := 14, nbl := 91, nchan := 64, ntime := 29, nsrc := 20 }
        Precision.single).launch_params.grid.2.1 *
      (RimeBSqrt.initialise
        { na := 14, nbl := 91, nchan := 64, ntime := 29, nsrc := 20 }
        Precision.single).launch_params.block.2.1 ∧
    20 ≤ (RimeBSqrt.initialise
        { na := 14, nbl := 91, nchan := 64, ntime := 29, nsrc := 20 }
        Precision.single).launch_params.grid.2.2 *
      (RimeBSqrt.initialise
        { na := 14, nbl := 91, nchan := 64, ntime := 29, nsrc := 20 }
        Precision.single).launch_params.block.2.2 :=
  bsqrt_launch_covers_extents
    { na := 14, nbl := 91, nchan := 64, ntime := 29, nsrc := 20 }
    Precision.single (by decide) (by decide) (by decide) (by decide) (by decide)

/-- C2: for every Dimension Set and Precision Mode, the presets are
`BLOCKDIMX = 32` for both precisions, `BLOCKDIMY = 32` (single) and `16`
(double), `BLOCKDIMZ = 1`, and `RimeBSqrt.initialise` narrows each block
dimension to the problem extent on its axis (`4*nchan` for X, `ntime`
for Y, `nsrc` for Z) exactly when that extent is smaller than the
preset, otherwise keeping the preset. -/
theorem bsqrt_block_narrowing (d : DimSet) (p : Precision) :
    FLOAT_PARAMS.BLOCKDIMX = 32 ∧ DOUBLE_PARAMS.BLOCKDIMX = 32 ∧
    FLOAT_PARAMS.BLOCKDIMY = 32 ∧ DOUBLE_PARAMS.BLOCKDIMY = 16 ∧
    FLOAT_PARAMS.BLOCKDIMZ = 1 ∧ DOUBLE_PARAMS.BLOCKDIMZ = 1 ∧
    (RimeBSqrt.initialise d p).launch_params.block =
      ( if 4 * d.nchan <
            (if is_float p then FLOAT_PARAMS else DOUBLE_PARAMS).BLOCKDIMX
          then 4 * d.nchan
          else (if is_float p then FLOAT_PARAMS else DOUBLE_PARAMS).BLOCKDIMX,
        if d.ntime <
            (if is_float p then FLOAT_PARAMS else DOUBLE_PARAMS).BLOCKDIMY
          then d.ntime
          else (if is_float p then FLOAT_PARAMS else DOUBLE_PARAMS).BLOCKDIMY,
        if d.nsrc <
            (if is_float p then FLOAT_PARAMS else DOUBLE_PARAMS).BLOCKDIMZ
          then d.nsrc
          else (if is_float p then FLOAT_PARAMS else DOUBLE_PARAMS).BLOCKDIMZ ) :=
  ⟨rfl, rfl, rfl, rfl, rfl, rfl, initialise_block_eq d p⟩

/-- C3: the specific Dimension Set `{na=14, nbl=91, nchan=64, ntime=29,
nsrc=20}` in single precision yields block `(32, 29, 1)` and grid
`(8, 1, 20)`. -/
theorem bsqrt_scenario1 :
    (RimeBSqrt.initialise
        { na := 14, nbl := 91, nchan := 64, ntime := 29, nsrc := 20 }
        Precision.single).launch_params =
      { block := (32, 29, 1), grid := (8, 1, 20) } := by
  rfl

/-- C6 counterexample: at the Dimension Set `{na=14, nbl=91, nchan=64,
ntime=0, nsrc=20}` (single precision) the resolver produces grid
dimension 0 on the time axis, so it does produce a zero grid
dimension. -/
theorem bsqrt_zero_ntime_zero_grid :
    (RimeBSqrt.initialise
        { na := 14, nbl := 91, nchan := 64, ntime := 0, nsrc := 20 }
        Precision.single).launch_params.grid.2.1 = 0 := by
  rfl

/-- C6 amended: when `ntime = 0` (resp. `nsrc = 0`), the narrowing sets
the block dimension of that axis to `0` and the ceiling-division grid
dimension of that axis (with `blocks_required` modelled from the spec
over `Nat`) is `0` as well: the resolver does not clamp the grid to be
positive. -/
theorem bsqrt_zero_axis_zero_geometry (d : DimSet) (p : Precision) :
    (d.ntime = 0 →
      (RimeBSqrt.initialise d p).launch_params.block.2.1 = 0 ∧
      (RimeBSqrt.initialise d p).launch_params.grid.2.1 = 0) ∧
    (d.nsrc = 0 →
      (RimeBSqrt.initialise d p).launch_params.block.2.2 = 0 ∧
      (RimeBSqrt.initialise d p).launch_params.grid.2.2 = 0) := by
  rcases p with _ | _ <;> refine ⟨fun h => ?_, fun h => ?_⟩ <;>
    simp [initialise_grid_eq, initialise_block_eq_single,
      initialise_block_eq_double, h, blocks_required]

/-- C4: `SersicChiSquaredGradient.execute` passes the null sentinel
`np.intp(0)` as the sersic shape argument (position 1 of the kernel
argument list) if and only if the `sersic_shape` tensor has zero
elements; with at least one element the tensor itself is passed
unchanged; in both cases the full 12-argument list is produced (no
error path exists for the zero-element case). -/
theorem sersic_null_sentinel {α : Type} (slvr : GradSolver α) :
    ((SersicChiSquaredGradient.execute slvr).get? 1 =
        some (KernelArg.intp 0) ↔ Tensor.numElements slvr.sersic_shape = 0) ∧
    (Tensor.numElements slvr.sersic_shape ≠ 0 →
      (SersicChiSquaredGradient.execute slvr).get? 1 =
        some (KernelArg.tensor slvr.sersic_shape)) ∧
    (SersicChiSquaredGradient.execute slvr).length = 12 := by
  by_cases h : Tensor.numElements slvr.sersic_shape = 0 <;>
    simp [SersicChiSquaredGradient.execute, h]

/-- C5: running `initialise` twice with the same Dimension Set and
Precision Mode — the second call starting from the module state and node
state the first call left behind — produces the same Launch Geometry
and the same substituted kernel source text both times. -/
theorem initialise_idempotent (ms : ModuleState) (d : DimSet) (p : Precision)
    (ns : NodeState) :
    (RimeBSqrt.initialiseSt ms d p ns).1.launch_params =
      (RimeBSqrt.initialiseSt (RimeBSqrt.initialiseSt ms d p ns).2.1 d p
        (RimeBSqrt.initialiseSt ms d p ns).2.2).1.launch_params ∧
    (RimeBSqrt.initialiseSt ms d p ns).1.kernel_string =
      (RimeBSqrt.initialiseSt (RimeBSqrt.initialiseSt ms d p ns).2.1 d p
        (RimeBSqrt.initialiseSt ms d p ns).2.2).1.kernel_string :=
  ⟨rfl, rfl⟩

/-- C8: a thread of the B-sqrt kernel whose computed `SRC`, `TIME` or
`POLCHAN` index lies outside the valid extent returns early and leaves
the output buffer unchanged. -/
theorem bsqrt_kernel_guard {α : Type} (K : KernelConsts)
    (brightness_sqrt : Nat → Nat → Nat → α)
    (blockIdx blockDim threadIdx : Dim3) (B_sqrt : List α)
    (h : blockIdx.z * blockDim.z + threadIdx.z ≥ K.NSRC ∨
         blockIdx.y * blockDim.y + threadIdx.y ≥ K.NTIME ∨
         blockIdx.x * blockDim.x + threadIdx.x ≥ K.NPOLCHAN) :
    rime_jones_B_sqrt_impl K brightness_sqrt blockIdx blockDim threadIdx
      B_sqrt = B_sqrt := by
  simp only [rime_jones_B_sqrt_impl]
  exact if_pos h

/-- Witness for C8: with extents `NSRC=20, NTIME=29, NPOLCHAN=256`, the
thread at `SRC = 20*1+0 = 20 ≥ 20` leaves the buffer `[1, 2, 3]`
unchanged. -/
theorem bsqrt_kernel_guard_witness :
    rime_jones_B_sqrt_impl { NSRC := 20, NTIME := 29, NPOLCHAN := 256 }
      (fun _ _ _ => (0 : Nat)) { x := 0, y := 0, z := 20 }
      { x := 1, y := 1, z := 1 } { x := 0, y := 0, z := 0 }
      [1, 2, 3] = [1, 2, 3] :=
  bsqrt_kernel_guard _ _ _ _ _ _ (by decide)

/-- C9 counterexample: on a concrete initialised node, `shutdown` leaves
the node exactly as it was — in particular the compiled kernel handle is
still present afterwards, so `shutdown` does not release it. -/
theorem shutdown_keeps_kernel_handle :
    RimeBSqrt.shutdown exampleInitialisedNode = exampleInitialisedNode ∧
    (RimeBSqrt.shutdown exampleInitialisedNode).kernel =
      some "rime_jones_B_sqrt_float" :=
  ⟨rfl, rfl⟩

/-- C9 amended: `RimeBSqrt.shutdown` has an empty body (`pass`): it is a
no-op that leaves the node state — including the compiled kernel
handle — unchanged, and calling it a second time is likewise a no-op
with no error (idempotent). -/
theorem shutdown_noop_idempotent (ns : NodeState) :
    RimeBSqrt.shutdown ns = ns ∧
    RimeBSqrt.shutdown (RimeBSqrt.shutdown ns) = RimeBSqrt.shutdown ns :=
  ⟨rfl, rfl⟩

/-- Any sequence of `initialise` calls leaves the module-level state as
it started: no call assigns to the preset dictionaries. -/
theorem runInitialiseCalls_fst (calls : List (DimSet × Precision))
    (ms : ModuleState) (ns : NodeState) :
    (RimeBSqrt.runInitialiseCalls calls ms ns).1 = ms := by
  induction calls generalizing ms ns with
  | nil => rfl
  | cons c rest ih =>
      obtain ⟨d, p⟩ := c
      exact ih _ _

/-- C10: `RimeBSqrt.initialise` never mutates the module-level preset
dictionaries: after any sequence of `initialise` calls (any Dimension
Sets and Precision Modes) the module state is unchanged, and starting
from the original module state every call still sees
`FLOAT_PARAMS`/`DOUBLE_PARAMS` as the module defines them. -/
theorem initialise_preserves_presets (calls : List (DimSet × Precision))
    (ms : ModuleState) (ns : NodeState) :
    (RimeBSqrt.runInitialiseCalls calls ms ns).1 = ms ∧
    (RimeBSqrt.runInitialiseCalls calls initialModuleState ns).1 =
      { float_params := FLOAT_PARAMS, double_params := DOUBLE_PARAMS } :=
  ⟨runInitialiseCalls_fst calls ms ns,
   runInitialiseCalls_fst calls initialModuleState ns⟩

/-- Reading back the character of a decimal digit gives the digit. -/
theorem charDigit_digitChar {d : Nat} (h : d < 10) :
    charDigit (digitChar d) = d := by
  interval_cases d <;> rfl

/-- Decimal digit characters satisfy `Char.isDigit`. -/
theorem isDigit_digitChar {d : Nat} (h : d < 10) :
    (digitChar d).isDigit = true := by
  interval_cases d <;> rfl

/-- Decimal value of a concatenation of digit strings. -/
theorem natOfChars_append (a b : List Char) :
    natOfChars (a ++ b) = natOfChars a * 10 ^ b.length + natOfChars b := by
  induction a with
  | nil => simp [natOfChars]
  | cons c cs ih =>
      simp only [List.cons_append, natOfChars, ih, List.length_append, pow_add,
        List.append_eq]
      ring

/-- Rendering a natural number with enough fuel and reading the digits
back recovers the number. -/
theorem natOfChars_natToCharsAux (fuel : Nat) :
    ∀ n, n ≤ fuel → natOfChars (natToCharsAux fuel n) = n := by
  induction fuel with
  | zero =>
      intro n hn
      interval_cases n
      rfl
  | succ fuel ih =>
      intro n hn
      match n with
      | 0 => rfl
      | m + 1 =>
          have hdiv : (m + 1) / 10 ≤ fuel := by
            have := Nat.div_lt_self (Nat.succ_pos m) (by omega : 1 < 10)
            omega
          have hmod : (m + 1) % 10 < 10 := Nat.mod_lt _ (by omega)
          rw [natToCharsAux, natOfChars_append, ih _ hdiv]
          simp only [natOfChars, List.length_cons, List.length_nil, pow_zero,
            pow_one, charDigit_digitChar hmod, Nat.zero_add, Nat.mul_one,
            Nat.add_zero]
          omega

/-- Decimal round trip: reading the rendered digits of a natural number
back recovers the number. -/
theorem natOfChars_natToChars (n : Nat) :
    natOfChars (natToChars n) = n := by
  unfold natToChars
  split
  · simp_all [natOfChars, charDigit, digitChar]
  · exact natOfChars_natToCharsAux n n le_rfl

/-- The decimal rendering of a natural number is never empty. -/
theorem natToChars_ne_nil (n : Nat) : natToChars n ≠ [] := by
  unfold natToChars
  split
  · simp
  · match n with
    | m + 1 => simp [natToCharsAux]

/-- Every character of `natToCharsAux` is a decimal digit. -/
theorem natToCharsAux_all_isDigit (fuel : Nat) :
    ∀ n, (natToCharsAux fuel n).all Char.isDigit = true := by
  induction fuel with
  | zero => intro n; rfl
  | succ fuel ih =>
      intro n
      match n with
      | 0 => rfl
      | m + 1 =>
          have hmod : (m + 1) % 10 < 10 := Nat.mod_lt _ (by omega)
          rw [natToCharsAux]
          simp [List.all_append, ih, isDigit_digitChar hmod]

/-- Every character of the decimal rendering is a decimal digit. -/
theorem natToChars_all_isDigit (n : Nat) :
    (natToChars n).all Char.isDigit = true := by
  unfold natToChars
  split
  · rfl
  · exact natToCharsAux_all_isDigit n n

/-- Consuming a literal piece off the concatenation of exactly that
piece and a remainder yields the remainder. -/
theorem stripLit_append (p rest : List Char) :
    stripLit p (p ++ rest) = some rest := by
  induction p with
  | nil => rfl
  | cons c cs ih => simp [stripLit, ih]

/-- Splitting a `name space tail` line at the first space recovers the
space-free name and the tail. -/
theorem splitAtSpace_append (nm tail : List Char)
    (h : nm.all (fun c => c != ' ') = true) :
    (nm ++ ' ' :: tail).takeWhile (fun c => c != ' ') = nm ∧
    (nm ++ ' ' :: tail).dropWhile (fun c => c != ' ') = ' ' :: tail := by
  induction nm with
  | nil => exact ⟨rfl, rfl⟩
  | cons c cs ih =>
      simp only [List.all_cons, Bool.and_eq_true] at h
      obtain ⟨ih1, ih2⟩ := ih h.2
      refine ⟨?_, ?_⟩
      · simp [List.takeWhile_cons, h.1, ih1]
      · simp [List.dropWhile_cons, h.1, ih2]

/-- Consuming a two-character literal piece. -/
theorem stripLit_two (a b : Char) (rest : List Char) :
    stripLit [a, b] (a :: b :: rest) = some rest := by
  simp [stripLit]

/-- Parsing a rendered `#define` line for its own constant name yields
the substituted value. -/
theorem parseDefineLine_defLine_self (nm : List Char) (n : Nat)
    (h : nm.all (fun c => c != ' ') = true) :
    parseDefineLine nm (defLine nm n) = some n := by
  have hsplit := splitAtSpace_append nm ('(' :: (natToChars n ++ [')'])) h
  unfold parseDefineLine defLine
  simp only [List.append_assoc, List.cons_append, List.nil_append]
  rw [stripLit_append, Option.bind]
  rw [hsplit.1, if_pos rfl, hsplit.2, stripLit_two, Option.bind]
  rw [List.getLast?_concat, if_pos rfl, List.dropLast_concat,
    if_neg (natToChars_ne_nil n), natToChars_all_isDigit, if_pos rfl,
    natOfChars_natToChars]

/-- Parsing a rendered `#define` line for a different constant name
yields nothing. -/
theorem parseDefineLine_defLine_ne (q nm : List Char) (n : Nat)
    (h : nm.all (fun c => c != ' ') = true) (hne : ¬ nm = q) :
    parseDefineLine q (defLine nm n) = none := by
  have hsplit := splitAtSpace_append nm ('(' :: (natToChars n ++ [')'])) h
  unfold parseDefineLine defLine
  simp only [List.append_assoc, List.cons_append, List.nil_append]
  rw [stripLit_append, Option.bind]
  rw [hsplit.1, if_neg hne]

/-- Looking for a constant in a text whose first chunk does not declare
it continues in the rest of the text. -/
theorem findDefine_append_none {q : List Char} {xs : List (List Char)}
    (h : findDefine q xs = none) (ys : List (List Char)) :
    findDefine q (xs ++ ys) = findDefine q ys := by
  induction xs with
  | nil => rfl
  | cons l ls ih =>
      rw [List.cons_append]
      cases hp : parseDefineLine q l with
      | some v => simp [findDefine, hp] at h
      | none =>
          simp only [findDefine, hp] at h ⊢
          exact ih h

set_option maxRecDepth 4000 in
/-- C7: rendering `KERNEL_TEMPLATE` with a parameter mapping and
re-parsing the `#define`d constants `NA`, `NBL`, `NCHAN`, `NTIME`,
`NSRC`, `BLOCKDIMX`, `BLOCKDIMY`, `BLOCKDIMZ` back out of the rendered
text recovers exactly the input mapping. -/
theorem kernel_template_roundtrip (D : PropDict) :
    findDefine ("NA".toList) (KERNEL_TEMPLATE_substitute D) =
      some D.na ∧
    findDefine ("NBL".toList) (KERNEL_TEMPLATE_substitute D) =
      some D.nbl ∧
    findDefine ("NCHAN".toList) (KERNEL_TEMPLATE_substitute D) =
      some D.nchan ∧
    findDefine ("NTIME".toList) (KERNEL_TEMPLATE_substitute D) =
      some D.ntime ∧
    findDefine ("NSRC".toList) (KERNEL_TEMPLATE_substitute D) =
      some D.nsrc ∧
    findDefine ("BLOCKDIMX".toList) (KERNEL_TEMPLATE_substitute D) =
      some D.BLOCKDIMX ∧
    findDefine ("BLOCKDIMY".toList) (KERNEL_TEMPLATE_substitute D) =
      some D.BLOCKDIMY ∧
    findDefine ("BLOCKDIMZ".toList) (KERNEL_TEMPLATE_substitute D) =
      some D.BLOCKDIMZ := by
  refine ⟨?_, ?_, ?_, ?_, ?_, ?_, ?_, ?_⟩
  · have hh : findDefine ("NA".toList) (templateHead.map String.toList) =
        none := by decide
    simp only [KERNEL_TEMPLATE_substitute, List.append_assoc, List.cons_append,
      List.nil_append]
    rw [findDefine_append_none hh]
    rw [findDefine, parseDefineLine_defLine_self ("NA".toList) D.na (by decide)]
  · have hh : findDefine ("NBL".toList) (templateHead.map String.toList) =
        none := by decide
    have e1 : parseDefineLine ("NBL".toList)
        (defLine ("NA".toList) D.na) = none :=
      parseDefineLine_defLine_ne _ _ _ (by decide) (by decide)
    simp only [KERNEL_TEMPLATE_substitute, List.append_assoc, List.cons_append,
      List.nil_append]
    rw [findDefine_append_none hh]
    rw [findDefine, e1]
    rw [findDefine, parseDefineLine_defLine_self ("NBL".toList) D.nbl (by decide)]
  · have hh : findDefine ("NCHAN".toList) (templateHead.map String.toList) =
        none := by decide
    have e1 : parseDefineLine ("NCHAN".toList)
        (defLine ("NA".toList) D.na) = none :=
      parseDefineLine_defLine_ne _ _ _ (by decide) (by decide)
    have e2 : parseDefineLine ("NCHAN".toList)
        (defLine ("NBL".toList) D.nbl) = none :=
      parseDefineLine_defLine_ne _ _ _ (by decide) (by decide)
    simp only [KERNEL_TEMPLATE_substitute, List.append_assoc, List.cons_append,
      List.nil_append]
    rw [findDefine_append_none hh]
    rw [findDefine, e1]
    rw [findDefine, e2]
    rw [findDefine, parseDefineLine_defLine_self ("NCHAN".toList) D.nchan (by decide)]
  · have hh : findDefine ("NTIME".toList) (templateHead.map String.toList) =
        none := by decide
    have e1 : parseDefineLine ("NTIME".toList)
        (defLine ("NA".toList) D.na) = none :=
      parseDefineLine_defLine_ne _ _ _ (by decide) (by decide)
    have e2 : parseDefineLine ("NTIME".toList)
        (defLine ("NBL".toList) D.nbl) = none :=
      parseDefineLine_defLine_ne _ _ _ (by decide) (by decide)
    have e3 : parseDefineLine ("NTIME".toList)
        (defLine ("NCHAN".toList) D.nchan) = none :=
      parseDefineLine_defLine_ne _ _ _ (by decide) (by decide)
    simp only [KERNEL_TEMPLATE_substitute, List.append_assoc, List.cons_append,
      List.nil_append]
    rw [findDefine_append_none hh]
    rw [findDefine, e1]
    rw [findDefine, e2]
    rw [findDefine, e3]
    rw [findDefine, parseDefineLine_defLine_self ("NTIME".toList) D.ntime (by decide)]
  · have hh : findDefine ("NSRC".toList) (templateHead.map String.toList) =
        none := by decide
    have e1 : parseDefineLine ("NSRC".toList)
        (defLine ("NA".toList) D.na) = none :=
      parseDefineLine_defLine_ne _ _ _ (by decide) (by decide)
    have e2 : parseDefineLine ("NSRC".toList)
        (defLine ("NBL".toList) D.nbl) = none :=
      parseDefineLine_defLine_ne _ _ _ (by decide) (by decide)
    have e3 : parseDefineLine ("NSRC".toList)
        (defLine ("NCHAN".toList) D.nchan) = none :=
      parseDefineLine_defLine_ne _ _ _ (by decide) (by decide)
    have e4 : parseDefineLine ("NSRC".toList)
        (defLine ("NTIME".toList) D.ntime) = none :=
      parseDefineLine_defLine_ne _ _ _ (by decide) (by decide)
    simp only [KERNEL_TEMPLATE_substitute, List.append_assoc, List.cons_append,
      List.nil_append]
    rw [findDefine_append_none hh]
    rw [findDefine, e1]
    rw [findDefine, e2]
    rw [findDefine, e3]
    rw [findDefine, e4]
    rw [findDefine, parseDefineLine_defLine_self ("NSRC".toList) D.nsrc (by decide)]
  · have hh : findDefine ("BLOCKDIMX".toList) (templateHead.map String.toList) =
        none := by decide
    have hm : findDefine ("BLOCKDIMX".toList) (templateMid.map String.toList) =
        none := by decide
    have e1 : parseDefineLine ("BLOCKDIMX".toList)
        (defLine ("NA".toList) D.na) = none :=
      parseDefineLine_defLine_ne _ _ _ (by decide) (by decide)
    have e2 : parseDefineLine ("BLOCKDIMX".toList)
        (defLine ("NBL".toList) D.nbl) = none :=
      parseDefineLine_defLine_ne _ _ _ (by decide) (by decide)
    have e3 : parseDefineLine ("BLOCKDIMX".toList)
        (defLine ("NCHAN".toList) D.nchan) = none :=
      parseDefineLine_defLine_ne _ _ _ (by decide) (by decide)
    have e4 : parseDefineLine ("BLOCKDIMX".toList)
        (defLine ("NTIME".toList) D.ntime) = none :=
      parseDefineLine_defLine_ne _ _ _ (by decide) (by decide)
    have e5 : parseDefineLine ("BLOCKDIMX".toList)
        (defLine ("NSRC".toList) D.nsrc) = none :=
      parseDefineLine_defLine_ne _ _ _ (by decide) (by decide)
    simp only [KERNEL_TEMPLATE_substitute, List.append_assoc, List.cons_append,
      List.nil_append]
    rw [findDefine_append_none hh]
    rw [findDefine, e1]
    rw [findDefine, e2]
    rw [findDefine, e3]
    rw [findDefine, e4]
    rw [findDefine, e5]
    rw [findDefine_append_none hm]
    rw [findDefine, parseDefineLine_defLine_self ("BLOCKDIMX".toList) D.BLOCKDIMX (by decide)]
  · have hh : findDefine ("BLOCKDIMY".toList) (templateHead.map String.toList) =
        none := by decide
    have hm : findDefine ("BLOCKDIMY".toList) (templateMid.map String.toList) =
        none := by decide
    have e1 : parseDefineLine ("BLOCKDIMY".toList)
        (defLine ("NA".toList) D.na) = none :=
      parseDefineLine_defLine_ne _ _ _ (by decide) (by decide)
    have e2 : parseDefineLine ("BLOCKDIMY".toList)
        (defLine ("NBL".toList) D.nbl) = none :=
      parseDefineLine_defLine_ne _ _ _ (by decide) (by decide)
    have e3 : parseDefineLine ("BLOCKDIMY".toList)
        (defLine ("NCHAN".toList) D.nchan) = none :=
      parseDefineLine_defLine_ne _ _ _ (by decide) (by decide)
    have e4 : parseDefineLine ("BLOCKDIMY".toList)
        (defLine ("NTIME".toList) D.ntime) = none :=
      parseDefineLine_defLine_ne _ _ _ (by decide) (by decide)
    have e5 : parseDefineLine ("BLOCKDIMY".toList)
        (defLine ("NSRC".toList) D.nsrc) = none :=
      parseDefineLine_defLine_ne _ _ _ (by decide) (by decide)
    have e6 : parseDefineLine ("BLOCKDIMY".toList)
        (defLine ("BLOCKDIMX".toList) D.BLOCKDIMX) = none :=
      parseDefineLine_defLine_ne _ _ _ (by decide) (by decide)
    simp only [KERNEL_TEMPLATE_substitute, List.append_assoc, List.cons_append,
      List.nil_append]
    rw [findDefine_append_none hh]
    rw [findDefine, e1]
    rw [findDefine, e2]
    rw [findDefine, e3]
    rw [findDefine, e4]
    rw [findDefine, e5]
    rw [findDefine_append_none hm]
    rw [findDefine, e6]
    rw [findDefine, parseDefineLine_defLine_self ("BLOCKDIMY".toList) D.BLOCKDIMY (by decide)]
  · have hh : findDefine ("BLOCKDIMZ".toList) (templateHead.map String.toList) =
        none := by decide
    have hm : findDefine ("BLOCKDIMZ".toList) (templateMid.map String.toList) =
        none := by decide
    have e1 : parseDefineLine ("BLOCKDIMZ".toList)
        (defLine ("NA".toList) D.na) = none :=
      parseDefineLine_defLine_ne _ _ _ (by decide) (by decide)
    have e2 : parseDefineLine ("BLOCKDIMZ".toList)
        (defLine ("NBL".toList) D.nbl) = none :=
      parseDefineLine_defLine_ne _ _ _ (by decide) (by decide)
    have e3 : parseDefineLine ("BLOCKDIMZ".toList)
        (defLine ("NCHAN".toList) D.nchan) = none :=
      parseDefineLine_defLine_ne _ _ _ (by decide) (by decide)
    have e4 : parseDefineLine ("BLOCKDIMZ".toList)
        (defLine ("NTIME".toList) D.ntime) = none :=
      parseDefineLine_defLine_ne _ _ _ (by decide) (by decide)
    have e5 : parseDefineLine ("BLOCKDIMZ".toList)
        (defLine ("NSRC".toList) D.nsrc) = none :=
      parseDefineLine_defLine_ne _ _ _ (by decide) (by decide)
    have e6 : parseDefineLine ("BLOCKDIMZ".toList)
        (defLine ("BLOCKDIMX".toList) D.BLOCKDIMX) = none :=
      parseDefineLine_defLine_ne _ _ _ (by decide) (by decide)
    have e7 : parseDefineLine ("BLOCKDIMZ".toList)
        (defLine ("BLOCKDIMY".toList) D.BLOCKDIMY) = none :=
      parseDefineLine_defLine_ne _ _ _ (by decide) (by decide)
    simp only [KERNEL_TEMPLATE_substitute, List.append_assoc, List.cons_append,
      List.nil_append]
    rw [findDefine_append_none hh]
    rw [findDefine, e1]
    rw [findDefine, e2]
    rw [findDefine, e3]
    rw [findDefine, e4]
    rw [findDefine, e5]
    rw [findDefine_append_none hm]
    rw [findDefine, e6]
    rw [findDefine, e7]
    rw [findDefine, parseDefineLine_defLine_self ("BLOCKDIMZ".toList) D.BLOCKDIMZ (by decide)]

end Montblanc
